import Mathlib

/-
Verification development for the SunoApi client (src/lib/SunoApi.ts).

The TypeScript client is a sequential orchestrator of HTTP calls: it keeps a
session id and a bearer token, refreshes the token before each operation,
submits generation jobs, and polls a feed endpoint for completion.  We embed
the data model and the pure logic of each operation in Lean.  External
effects (HTTP responses, elapsed wall-clock time, jittered sleeps) are
passed explicitly as parameters: a server is a function from poll index to
response, and durations are functions from poll index to milliseconds.

JavaScript string primitives used by parseLyrics (String.prototype.split,
trim, Array.prototype.join) are modelled structurally on the character list
of a string so that all definitions evaluate inside the kernel.
-/

namespace Suno

/-- Accumulator-based splitting of a character list on the newline character,
modelling the behaviour of the JavaScript expression prompt.split(chr 10):
splitting a string with a trailing newline yields a final empty piece, and
splitting the empty string yields one empty piece. -/
def splitNlAux : List Char → List Char → List (List Char)
  | [], acc => [acc.reverse]
  | c :: cs, acc =>
    if c = '\n' then acc.reverse :: splitNlAux cs [] else splitNlAux cs (c :: acc)

/-- Model of the JavaScript split on a newline separator. -/
def jsSplitNl (s : String) : List String :=
  (splitNlAux s.data []).map String.mk

/-- Whitespace predicate for the model of JavaScript trim (space, tab,
newline, carriage return cover every character the repository feeds it). -/
def isJsSpace (c : Char) : Bool :=
  c = ' ' || c = '\t' || c = '\n' || c = '\r'

/-- Model of JavaScript String.prototype.trim: drop whitespace from both
ends of the string. -/
def jsTrim (s : String) : String :=
  String.mk (((s.data.dropWhile isJsSpace).reverse.dropWhile isJsSpace).reverse)

/-- Model of the JavaScript Array.prototype.join with a newline separator. -/
def jsJoinNl : List String → String
  | [] => ""
  | [s] => s
  | s :: rest => s ++ "\n" ++ jsJoinNl rest

/-- Mirror of SunoApi.parseLyrics: split the prompt on newlines, remove the
lines whose trimmed form is empty, and join the remaining lines back with
newlines. -/
def parseLyrics (prompt : String) : String :=
  jsJoinNl ((jsSplitNl prompt).filter (fun line => jsTrim line ≠ ""))

/-- Metadata object of a raw server clip as read by the client: only the
fields the client dereferences are modelled, each optional because the raw
payload is untyped. -/
structure RawMetadata where
  prompt : Option String
  gpt_description_prompt : Option String
  type : Option String
  tags : Option String
  duration_formatted : Option String
deriving DecidableEq

/-- Raw audio clip object of a server payload, holding exactly the fields
the client reads when building an AudioInfo. -/
structure RawAudio where
  id : String
  title : Option String
  image_url : Option String
  audio_url : Option String
  video_url : Option String
  created_at : String
  model_name : String
  status : String
  metadata : RawMetadata
deriving DecidableEq

/-- Mirror of the AudioInfo interface of the client. -/
structure AudioInfo where
  id : String
  title : Option String
  image_url : Option String
  lyric : Option String
  audio_url : Option String
  video_url : Option String
  created_at : String
  model_name : String
  gpt_description_prompt : Option String
  prompt : Option String
  status : String
  type : Option String
  tags : Option String
  duration : Option String
deriving DecidableEq

/-- Mapping from a raw clip to an AudioInfo as performed inside SunoApi.get:
the lyric field is the parseLyrics rendering of metadata.prompt when that
field is truthy (present and non-empty) and the empty string otherwise; all
other fields are copied verbatim. -/
def mapGetAudio (a : RawAudio) : AudioInfo :=
  { id := a.id
    title := a.title
    image_url := a.image_url
    lyric := some (match a.metadata.prompt with
      | some p => if p = "" then "" else parseLyrics p
      | none => "")
    audio_url := a.audio_url
    video_url := a.video_url
    created_at := a.created_at
    model_name := a.model_name
    gpt_description_prompt := a.metadata.gpt_description_prompt
    prompt := a.metadata.prompt
    status := a.status
    type := a.metadata.type
    tags := a.metadata.tags
    duration := a.metadata.duration_formatted }

/-- Mapping from a raw clip to an AudioInfo as performed in the immediate
branch of generateSongs (wait_audio false): both lyric and prompt are copied
verbatim from metadata.prompt with no processing. -/
def mapClipAudio (a : RawAudio) : AudioInfo :=
  { id := a.id
    title := a.title
    image_url := a.image_url
    lyric := a.metadata.prompt
    audio_url := a.audio_url
    video_url := a.video_url
    created_at := a.created_at
    model_name := a.model_name
    gpt_description_prompt := a.metadata.gpt_description_prompt
    prompt := a.metadata.prompt
    status := a.status
    type := a.metadata.type
    tags := a.metadata.tags
    duration := a.metadata.duration_formatted }

/-- Mirror of SunoApi.get applied to a feed response body: every returned
clip is normalised with mapGetAudio. -/
def get (resp : List RawAudio) : List AudioInfo :=
  resp.map mapGetAudio

/-- Mutable per-instance state of the client: the session id and the current
bearer token, each absent until the corresponding step sets it. -/
structure ClientState where
  sid : Option String
  currentToken : Option String
deriving DecidableEq

/-- State of a freshly constructed client, before init has run. -/
def initialState : ClientState :=
  { sid := none, currentToken := none }

/-- Inner object of the identity endpoint response holding the session id;
the field is optional because the raw payload is untyped. -/
structure IdentityBody where
  last_active_session_id : Option String
deriving DecidableEq

/-- Body of the identity endpoint response; the response field is reached by
optional chaining in the client, hence optional here. -/
structure SessionData where
  response : Option IdentityBody
deriving DecidableEq

/-- Identity endpoint response as the client dereferences it; the data field
is reached by optional chaining, hence optional. -/
structure SessionResponse where
  data : Option SessionData
deriving DecidableEq

/-- Chained lookup sessionResponse.data.response.last_active_session_id. -/
def sessionId (r : SessionResponse) : Option String :=
  (r.data.bind (fun d => d.response)).bind (fun b => b.last_active_session_id)

/-- Message of the error thrown by getAuthToken. -/
def authErrMsg : String :=
  "Failed to get session id, you may need to update the SUNO_COOKIE"

/-- Message of the error thrown by keepAlive when no session id is set. -/
def stateErrMsg : String :=
  "Session ID is not set. Cannot renew token."

/-- Mirror of SunoApi.getAuthToken: the chained session id is tested for
JavaScript truthiness (an absent value and the empty string are both falsy
and raise the error); a truthy value is returned to be stored as sid. -/
def getAuthToken (r : SessionResponse) : Except String String :=
  match sessionId r with
  | none => .error authErrMsg
  | some s => if s = "" then .error authErrMsg else .ok s

/-- Body of the token renewal response; the jwt field is read without a
presence check in the client, hence optional here. -/
structure RenewResponse where
  jwt : Option String
deriving DecidableEq

/-- Mirror of SunoApi.keepAlive.  The server argument maps the session id
to the renewal response.  Returns the call outcome, the state after the
call, and the number of renewal requests issued.  With no session id set it
throws before issuing any request, leaving the state untouched; otherwise it
posts once and overwrites currentToken with the returned jwt.  The isWait
flag only inserts a jittered sleep in the client and does not affect data. -/
def keepAlive (s : ClientState) (server : String → RenewResponse) (isWait : Bool) :
    Except String Unit × ClientState × Nat :=
  match s.sid with
  | none => (.error stateErrMsg, s, 0)
  | some sd =>
    (.ok (), { sid := some sd, currentToken := (server sd).jwt }, 1)

/-- Mirror of the request interceptor installed in the constructor: when the
current token is truthy (present and non-empty) the Authorization header
with the bearer token is appended to the request headers; otherwise the
headers pass through unchanged. -/
def applyAuth (s : ClientState) (headers : List (String × String)) :
    List (String × String) :=
  match s.currentToken with
  | some t => if t = "" then headers else headers ++ [("Authorization", "Bearer " ++ t)]
  | none => headers

/-- Mirror of SunoApi.init: getAuthToken stores the session id, then
keepAlive performs the initial token refresh. -/
def init (r : SessionResponse) (server : String → RenewResponse) :
    Except String ClientState :=
  match getAuthToken r with
  | .error e => .error e
  | .ok sd =>
    match keepAlive { sid := some sd, currentToken := none } server false with
    | (.error e, _, _) => .error e
    | (.ok _, s2, _) => .ok s2

/-- Terminal status test of the polling loop in generateSongs: a clip is
finished when its status is streaming or complete. -/
def terminalStatus (a : AudioInfo) : Bool :=
  a.status == "streaming" || a.status == "complete"

/-- Polling loop of generateSongs with wait_audio true.  The env argument
gives the feed response of each successive status query, getd the duration
in milliseconds of each status query, and restd the duration of the sleep
and keepAlive call that end each iteration (modelled from the spec: the
sleep helper from the utils module is not part of the sources, the spec
describes it as a jittered delay of several seconds).  The loop checks the
elapsed time against the 100000 ms bound; inside the bound it queries the
feed, returns that response at once when every clip is terminal, and
otherwise records it as the last snapshot and sleeps; past the bound it
returns the last snapshot.  Recursion is on a fuel parameter; any fuel
beyond the iteration count forced by the time bound gives the same result.
The result pairs the returned snapshot with the elapsed time at return. -/
def pollAux (env : Nat → List AudioInfo) (getd restd : Nat → Nat) :
    Nat → Nat → Nat → List AudioInfo → List AudioInfo × Nat
  | 0, _, elapsed, last => (last, elapsed)
  | fuel + 1, i, elapsed, last =>
    if elapsed < 100000 then
      let resp := env i
      if resp.all terminalStatus then
        (resp, elapsed + getd i)
      else
        pollAux env getd restd fuel (i + 1) (elapsed + getd i + restd i) resp
    else
      (last, elapsed)

/-- Body of the generation submission response: a list of raw clips. -/
structure GenerateData where
  clips : List RawAudio
deriving DecidableEq

/-- HTTP response of the generation submission endpoint as the client reads
it: numeric status, status text, and the parsed body. -/
structure HttpResponse where
  status : Nat
  statusText : String
  data : GenerateData
deriving DecidableEq

/-- Mirror of SunoApi.generateSongs.  The submission response is the single
reply of the generation endpoint (the client posts exactly once, so the
model takes one response).  A status other than 200 throws the error built
from the status text before any polling.  With wait_audio true the polling
loop runs from elapsed time e0 (the initial five second sleep plus
overhead); with wait_audio false the clips of the submission response are
mapped verbatim and no polling happens, with elapsed time zero. -/
def generateSongs (subResp : HttpResponse) (wait_audio : Bool)
    (env : Nat → List AudioInfo) (getd restd : Nat → Nat) (e0 fuel : Nat) :
    Except String (List AudioInfo × Nat) :=
  if subResp.status ≠ 200 then
    .error ("Error response:" ++ subResp.statusText)
  else if wait_audio then
    .ok (pollAux env getd restd fuel 0 e0 [])
  else
    .ok (subResp.data.clips.map mapClipAudio, 0)

/-- Body of a lyrics status response as the client dereferences it; the
status field is reached by optional chaining, so a missing body is modelled
by passing none to the loop. -/
structure LyricsData where
  id : String
  status : String
  text : String
deriving DecidableEq

/-- Interval slept between two lyrics status polls, modelled from the spec:
the sleep helper is not part of the sources and the client requests a fixed
two second pause between checks. -/
def lyricsSleepMs : Nat := 2000

/-- Polling loop of generateLyrics.  The env argument gives the body of the
i-th status query (none when the body or its status is unreadable).  The
loop exits only when a poll reports status complete, returning that body
and its poll index; it has no time bound, so the recursion is on fuel alone
and exhausted fuel (returning none) stands for a run that has not returned
after that many polls. -/
def lyricsPoll (env : Nat → Option LyricsData) : Nat → Nat → Option (LyricsData × Nat)
  | 0, _ => none
  | fuel + 1, i =>
    match env i with
    | some d => if d.status = "complete" then some (d, i) else lyricsPoll env fuel (i + 1)
    | none => lyricsPoll env fuel (i + 1)

/-- Raw clip used to exhibit the lyric processing of the get mapping. -/
def rawEx : RawAudio :=
  ⟨"c1", some "T", some "img", some "aud", some "vid", "2024-04-23", "chirp-v3-0",
    "complete", ⟨some "line1\n\nline2", some "g", some "gen", some "pop", some "1:45"⟩⟩

/-- Raw clip matching the worked example of the spec: status complete,
title X, and a metadata prompt with a trailing newline. -/
def rawEx8 : RawAudio :=
  ⟨"c2", some "X", none, none, none, "2024-04-23", "chirp-v3-0",
    "complete", ⟨some "line1\nline2\n", none, none, none, none⟩⟩

/-- Raw clip with no metadata prompt. -/
def rawNoPrompt : RawAudio :=
  ⟨"c3", some "Y", none, none, none, "2024-04-23", "chirp-v3-0",
    "queued", ⟨none, none, none, none, none⟩⟩

/-- Raw clip whose prompt contains blank lines and surrounding whitespace,
separating the verbatim clip mapping from the processed get mapping. -/
def rawEx10 : RawAudio :=
  ⟨"c4", some "Z", none, none, none, "2024-04-23", "chirp-v3-0",
    "streaming", ⟨some "a\n\n b \n", none, none, none, none⟩⟩

/-- Audio record with a terminal status, used to exercise the polling
loop. -/
def audioComplete : AudioInfo :=
  ⟨"a1", some "T", none, some "line1", none, none, "2024-04-23", "chirp-v3-0",
    none, some "line1", "complete", none, none, none⟩

/-- Elapsed time at return of the polling loop never exceeds the 100000 ms
bound plus one full iteration duration, for any statuses the server
reports. -/
theorem pollAux_elapsed_le (env : Nat → List AudioInfo) (getd restd : Nat → Nat)
    (D : Nat) (hD : ∀ i, getd i + restd i ≤ D) :
    ∀ fuel i elapsed last, elapsed ≤ 100000 + D →
      (pollAux env getd restd fuel i elapsed last).2 ≤ 100000 + D := by
  intro fuel
  induction fuel with
  | zero =>
    intro i elapsed last h
    simpa [pollAux] using h
  | succ fuel ih =>
    intro i elapsed last h
    by_cases h1 : elapsed < 100000
    · by_cases h2 : (env i).all terminalStatus
      · have := hD i
        simp only [pollAux, h1, if_true, h2]
        omega
      · simp only [pollAux, h1, if_true, h2, if_false]
        apply ih
        have := hD i
        omega
    · simpa [pollAux, h1] using h

/-- Result of the polling loop is always an observed feed snapshot or the
initial empty snapshot. -/
theorem pollAux_result_shape (env : Nat → List AudioInfo) (getd restd : Nat → Nat) :
    ∀ fuel i elapsed last, (last = [] ∨ ∃ j, last = env j) →
      ((pollAux env getd restd fuel i elapsed last).1 = [] ∨
        ∃ j, (pollAux env getd restd fuel i elapsed last).1 = env j) := by
  intro fuel
  induction fuel with
  | zero =>
    intro i elapsed last h
    simpa [pollAux] using h
  | succ fuel ih =>
    intro i elapsed last h
    by_cases h1 : elapsed < 100000
    · by_cases h2 : (env i).all terminalStatus
      · simp only [pollAux, h1, if_true, h2]
        exact Or.inr ⟨i, rfl⟩
      · simp only [pollAux, h1, if_true, h2, if_false]
        exact ih (i + 1) (elapsed + getd i + restd i) (env i) (Or.inr ⟨i, rfl⟩)
    · simpa [pollAux, h1] using h

/-- Provided every iteration consumes at least one millisecond of sleep,
the loop result does not depend on the fuel parameter once the fuel covers
the iteration count forced by the time bound: the loop always exits through
the time check or a terminal snapshot, never through fuel exhaustion. -/
theorem pollAux_fuel_stable (env : Nat → List AudioInfo) (getd restd : Nat → Nat)
    (hrest : ∀ i, 1 ≤ restd i) :
    ∀ fuel fuel' i elapsed last, 100000 < elapsed + fuel → 100000 < elapsed + fuel' →
      pollAux env getd restd fuel i elapsed last =
        pollAux env getd restd fuel' i elapsed last := by
  intro fuel
  induction fuel with
  | zero =>
    intro fuel' i elapsed last h h'
    have he : ¬ elapsed < 100000 := by omega
    cases fuel' with
    | zero => rfl
    | succ fuel' => simp [pollAux, he]
  | succ fuel ih =>
    intro fuel' i elapsed last h h'
    cases fuel' with
    | zero =>
      have he : ¬ elapsed < 100000 := by omega
      simp [pollAux, he]
    | succ fuel' =>
      by_cases h1 : elapsed < 100000
      · by_cases h2 : (env i).all terminalStatus
        · simp only [pollAux, h1, if_true, h2]
        · simp only [pollAux, h1, if_true, h2, if_false]
          apply ih
          · have := hrest i
            omega
          · have := hrest i
            omega
      · simp [pollAux, h1]

/-- C1: for every submission accepted with status 200 and every sequence of
feed responses, generateSongs with wait_audio true returns an ok value (it
never throws past the submission) whose elapsed time is at most the 100000
ms timeout plus one polling interval D bounding each iteration, whose
snapshot is the empty list or some observed feed response, and whose value
does not change when the fuel parameter grows, so the loop always exits
through the time bound or a terminal snapshot. -/
theorem C1_generateSongs_timeout_bound
    (subResp : HttpResponse) (env : Nat → List AudioInfo) (getd restd : Nat → Nat)
    (e0 fuel D : Nat)
    (hsub : subResp.status = 200)
    (hrest : ∀ i, 1 ≤ restd i)
    (hD : ∀ i, getd i + restd i ≤ D)
    (he0 : e0 ≤ 100000)
    (hfuel : 100000 < e0 + fuel) :
    ∃ res tEnd,
      generateSongs subResp true env getd restd e0 fuel = .ok (res, tEnd) ∧
      tEnd ≤ 100000 + D ∧
      (res = [] ∨ ∃ i, res = env i) ∧
      pollAux env getd restd fuel 0 e0 [] = pollAux env getd restd 100001 0 e0 [] := by
  refine ⟨(pollAux env getd restd fuel 0 e0 []).1,
    (pollAux env getd restd fuel 0 e0 []).2, ?_, ?_, ?_, ?_⟩
  · simp [generateSongs, hsub]
  · exact pollAux_elapsed_le env getd restd D hD fuel 0 e0 [] (by omega)
  · exact pollAux_result_shape env getd restd fuel 0 e0 [] (Or.inl rfl)
  · exact pollAux_fuel_stable env getd restd hrest fuel 100001 0 e0 [] hfuel (by omega)

/-- C1 witness at a concrete accepted submission and a server that always
answers with the empty feed. -/
theorem C1_generateSongs_timeout_bound_witness :
    ∃ res tEnd,
      generateSongs ⟨200, "OK", ⟨[]⟩⟩ true (fun _ => []) (fun _ => 1000) (fun _ => 4000)
          5000 100001 = .ok (res, tEnd) ∧
      tEnd ≤ 100000 + 5000 ∧
      (res = [] ∨ ∃ _i : Nat, res = ([] : List AudioInfo)) ∧
      pollAux (fun _ => []) (fun _ => 1000) (fun _ => 4000) 100001 0 5000 [] =
        pollAux (fun _ => []) (fun _ => 1000) (fun _ => 4000) 100001 0 5000 [] :=
  C1_generateSongs_timeout_bound ⟨200, "OK", ⟨[]⟩⟩ (fun _ => []) (fun _ => 1000)
    (fun _ => 4000) 5000 100001 5000 rfl
    (fun _ => by show (1 : Nat) ≤ 4000; decide)
    (fun _ => by show (1000 : Nat) + 4000 ≤ 5000; decide)
    (by decide) (by decide)

/-- C2: the lyrics polling loop returns a value only when some status poll
reported the status complete, returning exactly that body, and when no poll
ever reports complete the loop returns nothing at every fuel, so the run
never returns: it has no timeout or iteration bound. -/
theorem C2_generateLyrics_polling (env : Nat → Option LyricsData) :
    (∀ fuel i d n, lyricsPoll env fuel i = some (d, n) →
      env n = some d ∧ d.status = "complete" ∧ i ≤ n) ∧
    ((∀ i d, env i = some d → d.status ≠ "complete") →
      ∀ fuel i, lyricsPoll env fuel i = none) := by
  constructor
  · intro fuel
    induction fuel with
    | zero =>
      intro i d n h
      simp [lyricsPoll] at h
    | succ fuel ih =>
      intro i d n h
      cases he : env i with
      | some d0 =>
        by_cases hc : d0.status = "complete"
        · simp only [lyricsPoll, he, hc, if_true] at h
          obtain ⟨h1, h2⟩ := Prod.mk.injEq .. ▸ Option.some.inj h
          subst h1
          subst h2
          exact ⟨he, hc, Nat.le_refl i⟩
        · simp only [lyricsPoll, he, hc, if_false] at h
          obtain ⟨h1, h2, h3⟩ := ih (i + 1) d n h
          exact ⟨h1, h2, by omega⟩
      | none =>
        simp only [lyricsPoll, he] at h
        obtain ⟨h1, h2, h3⟩ := ih (i + 1) d n h
        exact ⟨h1, h2, by omega⟩
  · intro hnc fuel
    induction fuel with
    | zero =>
      intro i
      rfl
    | succ fuel ih =>
      intro i
      cases he : env i with
      | some d0 =>
        have hne : d0.status ≠ "complete" := hnc i d0 he
        simp [lyricsPoll, he, hne, ih]
      | none =>
        simp [lyricsPoll, he, ih]

/-- C2 witness: a server that reports complete at the third poll makes the
loop return that body, and a server that never reports complete makes the
loop return nothing at a large fuel. -/
theorem C2_generateLyrics_polling_witness :
    ((fun j => if j = 2 then some (⟨"g1", "complete", "words"⟩ : LyricsData)
        else some ⟨"g1", "running", ""⟩) 2 = some ⟨"g1", "complete", "words"⟩ ∧
      (⟨"g1", "complete", "words"⟩ : LyricsData).status = "complete" ∧ 0 ≤ 2) ∧
    lyricsPoll (fun _ => some ⟨"g2", "running", ""⟩) 1000 0 = none :=
  ⟨(C2_generateLyrics_polling (fun j => if j = 2 then some ⟨"g1", "complete", "words"⟩
      else some ⟨"g1", "running", ""⟩)).1 5 0 ⟨"g1", "complete", "words"⟩ 2 (by decide),
    (C2_generateLyrics_polling (fun _ => some ⟨"g2", "running", ""⟩)).2
      (by
        intro i d h
        simp only [Option.some.injEq] at h
        subst h
        decide) 1000 0⟩

/-- C3 counterexample: an identity response whose last_active_session_id
field is present but holds the empty string still makes getAuthToken fail,
refuting the claim that the failure happens exactly when the field is
absent. -/
theorem C3_getAuthToken_counterexample :
    sessionId ⟨some ⟨some ⟨some ""⟩⟩⟩ = some "" ∧
    getAuthToken ⟨some ⟨some ⟨some ""⟩⟩⟩ = .error authErrMsg :=
  ⟨rfl, rfl⟩

/-- C3 amended: getAuthToken fails with the auth error exactly when the
chained session id is absent or is the empty string (JavaScript falsiness),
and stores s exactly when the chain holds a non-empty s. -/
theorem C3_getAuthToken_amended (r : SessionResponse) :
    (getAuthToken r = .error authErrMsg ↔ sessionId r = none ∨ sessionId r = some "") ∧
    (∀ s, getAuthToken r = .ok s ↔ sessionId r = some s ∧ s ≠ "") := by
  constructor
  · cases h : sessionId r with
    | none => simp [getAuthToken, h]
    | some s0 =>
      by_cases hs : s0 = ""
      · subst hs
        simp [getAuthToken, h]
      · simp [getAuthToken, h, hs]
  · intro s
    cases h : sessionId r with
    | none => simp [getAuthToken, h]
    | some s0 =>
      by_cases hs : s0 = ""
      · subst hs
        simp [getAuthToken, h]
        rintro rfl
        simp
      · simp only [getAuthToken, h, hs, if_false, Except.ok.injEq, Option.some.injEq]
        constructor
        · rintro rfl
          exact ⟨rfl, hs⟩
        · rintro ⟨rfl, _⟩
          rfl

/-- C4: keepAlive on a client whose session id is not set fails with the
state error, leaves the state (including the stored token) unchanged, and
issues zero renewal requests regardless of the server. -/
theorem C4_keepAlive_requires_sid (s : ClientState) (server : String → RenewResponse)
    (isWait : Bool) (h : s.sid = none) :
    keepAlive s server isWait = (.error stateErrMsg, s, 0) := by
  simp [keepAlive, h]

/-- C4 witness at the state of a freshly constructed client. -/
theorem C4_keepAlive_requires_sid_witness :
    initialState.sid = none ∧
    keepAlive initialState (fun _ => RenewResponse.mk (some "jwt")) false =
      (.error stateErrMsg, initialState, 0) :=
  ⟨rfl, C4_keepAlive_requires_sid initialState (fun _ => RenewResponse.mk (some "jwt"))
    false rfl⟩

/-- C5: on any iteration inside the time bound where every clip of the feed
response is terminal (streaming or complete), the polling loop returns that
response at once, spending only the status query duration and no further
sleep. -/
theorem C5_poll_terminal_returns_now (env : Nat → List AudioInfo)
    (getd restd : Nat → Nat) (fuel i elapsed : Nat) (last : List AudioInfo)
    (htime : elapsed < 100000) (hterm : (env i).all terminalStatus = true) :
    pollAux env getd restd (fuel + 1) i elapsed last = (env i, elapsed + getd i) := by
  simp [pollAux, htime, hterm]

/-- C5 witness at a server whose feed reports one complete clip. -/
theorem C5_poll_terminal_returns_now_witness :
    ((fun _ => [audioComplete]) 0).all terminalStatus = true ∧
    pollAux (fun _ => [audioComplete]) (fun _ => 1200) (fun _ => 4000) 8 0 0 [] =
      ([audioComplete], 1200) :=
  ⟨by decide,
    C5_poll_terminal_returns_now (fun _ => [audioComplete]) (fun _ => 1200)
      (fun _ => 4000) 7 0 0 [] (by decide) (by decide)⟩

/-- C6: any submission response whose HTTP status is not in the 2xx range
makes generateSongs fail with the generic error built from the status text,
for either wait mode and regardless of any later server behaviour, so no
retry of the submission is attempted. -/
theorem C6_non2xx_submission_error (subResp : HttpResponse) (wait_audio : Bool)
    (env : Nat → List AudioInfo) (getd restd : Nat → Nat) (e0 fuel : Nat)
    (h : ¬ (200 ≤ subResp.status ∧ subResp.status < 300)) :
    generateSongs subResp wait_audio env getd restd e0 fuel =
      .error ("Error response:" ++ subResp.statusText) := by
  have hne : subResp.status ≠ 200 := by omega
  simp [generateSongs, hne]

/-- C6 witness at a 404 submission response. -/
theorem C6_non2xx_submission_error_witness :
    generateSongs ⟨404, "Not Found", ⟨[]⟩⟩ false (fun _ => []) (fun _ => 0) (fun _ => 0)
        0 0 = .error ("Error response:" ++ "Not Found") :=
  C6_non2xx_submission_error ⟨404, "Not Found", ⟨[]⟩⟩ false (fun _ => []) (fun _ => 0)
    (fun _ => 0) 0 0 (by decide)

/-- C7 counterexample: for a raw clip whose metadata prompt contains a blank
line, the lyric field of the record produced by get differs from the raw
prompt even though that field is present, refuting losslessness of the
lyric field. -/
theorem C7_mapping_counterexample :
    rawEx.metadata.prompt = some "line1\n\nline2" ∧
    (mapGetAudio rawEx).lyric = some "line1\nline2" ∧
    (mapGetAudio rawEx).lyric ≠ rawEx.metadata.prompt :=
  ⟨rfl, by decide, by decide⟩

/-- C7 amended: the get mapping copies every field verbatim except lyric,
which is the parseLyrics rendering of the metadata prompt when that prompt
is truthy and the empty string otherwise; the immediate clip mapping of
generateSongs copies every field verbatim, lyric included. -/
theorem C7_mapping_amended (a : RawAudio) :
    (mapGetAudio a).id = a.id ∧
    (mapGetAudio a).title = a.title ∧
    (mapGetAudio a).image_url = a.image_url ∧
    (mapGetAudio a).audio_url = a.audio_url ∧
    (mapGetAudio a).video_url = a.video_url ∧
    (mapGetAudio a).created_at = a.created_at ∧
    (mapGetAudio a).model_name = a.model_name ∧
    (mapGetAudio a).status = a.status ∧
    (mapGetAudio a).gpt_description_prompt = a.metadata.gpt_description_prompt ∧
    (mapGetAudio a).prompt = a.metadata.prompt ∧
    (mapGetAudio a).type = a.metadata.type ∧
    (mapGetAudio a).tags = a.metadata.tags ∧
    (mapGetAudio a).duration = a.metadata.duration_formatted ∧
    (mapGetAudio a).lyric = some (match a.metadata.prompt with
      | some p => if p = "" then "" else parseLyrics p
      | none => "") ∧
    mapClipAudio a = ⟨a.id, a.title, a.image_url, a.metadata.prompt, a.audio_url,
      a.video_url, a.created_at, a.model_name, a.metadata.gpt_description_prompt,
      a.metadata.prompt, a.status, a.metadata.type, a.metadata.tags,
      a.metadata.duration_formatted⟩ :=
  ⟨rfl, rfl, rfl, rfl, rfl, rfl, rfl, rfl, rfl, rfl, rfl, rfl, rfl, rfl, rfl⟩

/-- C8: the lyric of a record produced by get is the metadata prompt split
on newlines with the whitespace-only lines removed and the rest rejoined
with newlines; a missing prompt yields the empty lyric; and on the worked
example with a trailing newline the produced record keeps status complete
and title X while the lyric drops the trailing empty line. -/
theorem C8_lyric_derivation :
    (∀ (a : RawAudio) (p : String), a.metadata.prompt = some p →
      (mapGetAudio a).lyric =
        some (jsJoinNl ((jsSplitNl p).filter (fun line => jsTrim line ≠ "")))) ∧
    (∀ a : RawAudio, a.metadata.prompt = none → (mapGetAudio a).lyric = some "") ∧
    ((mapGetAudio rawEx8).status = "complete" ∧ (mapGetAudio rawEx8).title = some "X" ∧
      (mapGetAudio rawEx8).lyric = some "line1\nline2") := by
  refine ⟨?_, ?_, by decide, by decide, by decide⟩
  · intro a p h
    by_cases hp : p = ""
    · subst hp
      simp [mapGetAudio, h]
      decide
    · simp [mapGetAudio, h, hp, parseLyrics]
  · intro a h
    simp [mapGetAudio, h]

/-- C8 witness at the worked example clip and at a clip with no prompt. -/
theorem C8_lyric_derivation_witness :
    (mapGetAudio rawEx8).lyric =
      some (jsJoinNl ((jsSplitNl "line1\nline2\n").filter (fun line => jsTrim line ≠ ""))) ∧
    (mapGetAudio rawNoPrompt).lyric = some "" :=
  ⟨C8_lyric_derivation.1 rawEx8 "line1\nline2\n" rfl,
    C8_lyric_derivation.2.1 rawNoPrompt rfl⟩

/-- C9: a truthy current token is attached verbatim as the bearer token of
the Authorization header of every outgoing request; with no token yet (as
in a freshly constructed client) the headers carry no Authorization entry;
keepAlive never changes the session id and overwrites only the token with
the jwt of the renewal response; and a successful init stores the session
id returned by getAuthToken together with the first renewed token. -/
theorem C9_token_attachment :
    (∀ (s : ClientState) (headers : List (String × String)) (t : String),
      s.currentToken = some t → t ≠ "" →
      applyAuth s headers = headers ++ [("Authorization", "Bearer " ++ t)]) ∧
    (∀ (s : ClientState) (headers : List (String × String)),
      s.currentToken = none → applyAuth s headers = headers) ∧
    (∀ (s : ClientState) (server : String → RenewResponse) (isWait : Bool),
      ((keepAlive s server isWait).2.1).sid = s.sid) ∧
    (∀ (s : ClientState) (server : String → RenewResponse) (isWait : Bool) (sd : String),
      s.sid = some sd →
      (keepAlive s server isWait).2.1 = ⟨some sd, (server sd).jwt⟩) ∧
    (∀ (r : SessionResponse) (server : String → RenewResponse) (s2 : ClientState),
      init r server = .ok s2 →
      ∃ sd, getAuthToken r = .ok sd ∧ s2 = ⟨some sd, (server sd).jwt⟩) ∧
    initialState.currentToken = none := by
  refine ⟨?_, ?_, ?_, ?_, ?_, rfl⟩
  · intro s headers t ht hne
    simp [applyAuth, ht, hne]
  · intro s headers h
    simp [applyAuth, h]
  · intro s server isWait
    cases h : s.sid with
    | none => simp [keepAlive, h]
    | some sd => simp [keepAlive, h]
  · intro s server isWait sd h
    simp [keepAlive, h]
  · intro r server s2 h
    cases hg : getAuthToken r with
    | error e => simp [init, hg] at h
    | ok sd =>
      refine ⟨sd, rfl, ?_⟩
      simp only [init, hg, keepAlive] at h
      exact (Except.ok.inj h).symm

/-- C9 witness at concrete states, a concrete renewal server, and a
concrete identity response. -/
theorem C9_token_attachment_witness :
    applyAuth ⟨some "sid1", some "tok"⟩ [] = [] ++ [("Authorization", "Bearer " ++ "tok")] ∧
    applyAuth ⟨some "sid1", none⟩ [("Accept", "all")] = [("Accept", "all")] ∧
    (keepAlive ⟨some "sid1", some "old"⟩ (fun _ => RenewResponse.mk (some "jwt1")) true).2.1 =
      ⟨some "sid1", (RenewResponse.mk (some "jwt1")).jwt⟩ ∧
    (∃ sd, getAuthToken ⟨some ⟨some ⟨some "sid1"⟩⟩⟩ = .ok sd ∧
      (⟨some "sid1", some "jwt1"⟩ : ClientState) =
        ⟨some sd, ((fun _ => RenewResponse.mk (some "jwt1")) sd).jwt⟩) :=
  ⟨C9_token_attachment.1 ⟨some "sid1", some "tok"⟩ [] "tok" rfl (by decide),
    C9_token_attachment.2.1 ⟨some "sid1", none⟩ [("Accept", "all")] rfl,
    C9_token_attachment.2.2.2.1 ⟨some "sid1", some "old"⟩
      (fun _ => RenewResponse.mk (some "jwt1")) true "sid1" rfl,
    C9_token_attachment.2.2.2.2.1 ⟨some ⟨some ⟨some "sid1"⟩⟩⟩
      (fun _ => RenewResponse.mk (some "jwt1")) ⟨some "sid1", some "jwt1"⟩ rfl⟩

/-- C10: the immediate branch of generateSongs copies the metadata prompt
verbatim into both the lyric and the prompt field with no processing, its
lyric can differ from the processed lyric of the get mapping, and a feed
response with zero clips satisfies the terminal check vacuously, ending
the polling loop at once with the empty result. -/
theorem C10_clip_branch_verbatim :
    (∀ a : RawAudio, (mapClipAudio a).lyric = a.metadata.prompt ∧
      (mapClipAudio a).prompt = a.metadata.prompt) ∧
    (mapClipAudio rawEx10).lyric ≠ (mapGetAudio rawEx10).lyric ∧
    (∀ (env : Nat → List AudioInfo) (getd restd : Nat → Nat)
      (fuel i elapsed : Nat) (last : List AudioInfo),
      elapsed < 100000 → env i = [] →
      pollAux env getd restd (fuel + 1) i elapsed last = ([], elapsed + getd i)) := by
  refine ⟨fun a => ⟨rfl, rfl⟩, by decide, ?_⟩
  intro env getd restd fuel i elapsed last ht he
  simp [pollAux, ht, he]

/-- C10 witness: an empty feed response inside the time bound ends the loop
at once, discarding the previous snapshot. -/
theorem C10_clip_branch_verbatim_witness :
    pollAux (fun _ => []) (fun _ => 800) (fun _ => 4000) 4 0 5000 [audioComplete] =
      ([], 5000 + 800) :=
  C10_clip_branch_verbatim.2.2 (fun _ => []) (fun _ => 800) (fun _ => 4000) 3 0 5000
    [audioComplete] (by decide) rfl

end Suno
